import Mathlib

/-!
Shallow embedding of the IA-MEDICA-CHATBOT application
(`app/main.py`, `app/db.py`, `app/models.py`, `app/schemas.py`,
`app/config.py`).  The database is explicit state, outbound HTTP calls
are oracle parameters, and Python truthiness and string operations are
modelled by executable Lean functions.
-/

namespace IaMedica

/-- Python truthiness of an `Optional[str]` value: `None` and `""` are falsy. -/
def truthyStr : Option String → Bool
  | none => false
  | some s => !(s == "")

/-- Python `s.startswith(p)`, at the character-list level. -/
def py_startswith (s p : String) : Bool :=
  p.data.isPrefixOf s.data

/-- Python `s.strip()`: drop leading and trailing whitespace characters. -/
def py_strip (s : String) : String :=
  String.mk (((s.data.dropWhile Char.isWhitespace).reverse.dropWhile Char.isWhitespace).reverse)

/-- `models.SenderTypeEnum`: `USER = "user"`, `AI = "ai"`. -/
inductive SenderTypeEnum
  | USER
  | AI
deriving DecidableEq, BEq

/-- `models.User`: one row of the `users` table (uuid ids modelled as `Nat`). -/
structure User where
  id : Nat
  phone_number : String
  name : Option String
deriving DecidableEq

/-- `models.ChatHistory`: one row of the `chat_history` table; `timestamp`
is the server-assigned creation time (`func.now()`), modelled as `Nat`. -/
structure ChatHistory where
  id : Nat
  user_id : Nat
  message : String
  sender_type : SenderTypeEnum
  timestamp : Nat
deriving DecidableEq

/-- The persistent store: the two tables plus the id and clock counters the
server uses on insertion (`uuid.uuid4` primary keys and `func.now()`
timestamps are modelled as increasing counters). -/
structure DB where
  users : List User
  chat : List ChatHistory
  nextUserId : Nat
  nextMsgId : Nat
  nextTime : Nat
deriving DecidableEq

/-- `main.get_or_create_user`: look the user up by phone number; if found,
update the name when the incoming name is truthy and the stored one is
missing or different (Python `if name and (not user.name or user.name !=
name)`); otherwise insert a fresh row with a new id. -/
def get_or_create_user (db : DB) (phone : String) (name : Option String) : User × DB :=
  match db.users.find? (fun u => u.phone_number == phone) with
  | some user =>
    if truthyStr name && (!truthyStr user.name || user.name != name) then
      let updated : User := { user with name := name }
      (updated, { db with users := db.users.map (fun u => if u.id == user.id then updated else u) })
    else
      (user, db)
  | none =>
    let new_user : User := { id := db.nextUserId, phone_number := phone, name := name }
    (new_user, { db with users := db.users ++ [new_user], nextUserId := db.nextUserId + 1 })

/-- `main.save_chat_message`: append one `ChatHistory` row with a fresh id
and the server-assigned (strictly increasing) timestamp. -/
def save_chat_message (db : DB) (user_id : Nat) (message : String) (sender : SenderTypeEnum) : DB :=
  { db with
    chat := db.chat ++
      [{ id := db.nextMsgId, user_id := user_id, message := message,
         sender_type := sender, timestamp := db.nextTime }],
    nextMsgId := db.nextMsgId + 1,
    nextTime := db.nextTime + 1 }

/-- Insertion step of the model of SQL `ORDER BY timestamp DESC`. -/
def insertTsDesc (m : ChatHistory) : List ChatHistory → List ChatHistory
  | [] => [m]
  | x :: xs => if x.timestamp ≤ m.timestamp then m :: x :: xs else x :: insertTsDesc m xs

/-- Model of SQL `ORDER BY timestamp DESC` (insertion sort, newest first). -/
def sortTsDesc : List ChatHistory → List ChatHistory
  | [] => []
  | x :: xs => insertTsDesc x (sortTsDesc xs)

/-- `main.get_chat_history`: the query
`SELECT ... WHERE user_id = U ORDER BY timestamp DESC LIMIT limit`,
then `messages[::-1]` to put the rows back in chronological order. -/
def get_chat_history (db : DB) (user_id : Nat) (limit : Nat) : List ChatHistory :=
  ((sortTsDesc (db.chat.filter (fun m => m.user_id == user_id))).take limit).reverse

/-- The phone normalization inside `main.send_zapi_message` (`clean_phone`
in the source): keep only digit characters, then prepend the country code
"55" when the digit string is short (length at most 11) and does not
already start with "55". -/
def clean_phone (phone : String) : String :=
  let cp := String.mk (phone.data.filter Char.isDigit)
  if cp.length ≤ 11 && !(py_startswith cp "55") then "55" ++ cp else cp

/-- The JSON body `{"phone": ..., "message": ...}` that
`main.send_zapi_message` posts to the Z-API gateway. -/
structure ZapiPayload where
  phone : String
  message : String
deriving DecidableEq

/-- `main.send_zapi_message`: no-op on an empty message (Python
`if not message: return`), otherwise post the normalized phone and the
message; network and HTTP failures are swallowed, so the observable
behaviour is just the optional outbound payload. -/
def send_zapi_message (phone : String) (message : String) : Option ZapiPayload :=
  if message == "" then none
  else some { phone := clean_phone phone, message := message }

/-- `schemas.OpenRouterMessage`: one role/content turn. -/
structure OpenRouterMessage where
  role : String
  content : String
deriving DecidableEq

/-- `schemas.OpenRouterChoice`. -/
structure OpenRouterChoice where
  message : OpenRouterMessage
deriving DecidableEq

/-- `schemas.OpenRouterResponse`: the parsed completion response body. -/
structure OpenRouterResponse where
  choices : List OpenRouterChoice
deriving DecidableEq

/-- Outcome of the outbound completion HTTP call, as the `try` block of
`main.call_openrouter` can observe it: a parsed successful response, an
HTTP status error (`raise_for_status`), or any other failure (network
error, JSON or validation error). -/
inductive CompletionHttpOutcome
  | success (resp : OpenRouterResponse)
  | httpStatusError (status : Nat)
  | otherError
deriving DecidableEq

/-- The result-extraction logic of `main.call_openrouter`: on success with
a nonempty `choices` list return the stripped content of the first choice;
on an empty `choices` list or any caught failure return `None`. -/
def openrouter_extract : CompletionHttpOutcome → Option String
  | .success parsed =>
    match parsed.choices with
    | [] => none
    | choice :: _ => some (py_strip choice.message.content)
  | .httpStatusError _ => none
  | .otherError => none

/-- `main.call_openrouter`: builds the request from the history (system
instruction first, then the supplied turns) and returns the extracted
reply; the returned value depends only on the HTTP outcome, every failure
being swallowed into `None`. -/
def call_openrouter (history : List OpenRouterMessage) (outcome : CompletionHttpOutcome) : Option String :=
  openrouter_extract outcome

/-- The fixed fallback apology `main.process_incoming_message` relays when
no AI reply was produced. -/
def fallback_apology_text : String :=
  "Desculpe, não consegui processar sua solicitação no momento. 🥺 Tente novamente mais tarde."

/-- The generic internal-error message the pipeline's top-level `except`
block relays. -/
def internal_error_text : String :=
  "Ocorreu um erro interno. Por favor, tente novamente mais tarde."

/-- Environment oracle for one pipeline run: the completion HTTP outcome,
the configured context window (`settings.CONTEXT_MESSAGE_COUNT`), and
whether each database operation raises (store unavailability, constraint
violations, ...). -/
structure PipelineEnv where
  aiOutcome : CompletionHttpOutcome
  contextMessageCount : Nat
  failResolveUser : Bool
  failSaveUserMsg : Bool
  failGetHistory : Bool
  failSaveAiMsg : Bool
deriving DecidableEq

/-- Observable result of one `main.process_incoming_message` run: the
session state when the function returns (flushed but not yet committed),
the outbound Z-API payloads it produced, whether an exception escaped the
function to its caller, and whether a database operation raised inside the
run — even when the pipeline caught that exception, the SQLAlchemy session
transaction is left in the rollback-only ("poisoned") state, so a later
`commit` on it raises. -/
structure PipelineResult where
  sessionDb : DB
  sends : List ZapiPayload
  raised : Bool
  poisoned : Bool
deriving DecidableEq

/-- `main.process_incoming_message`: resolve or create the user, save the
inbound USER message, fetch the bounded history, map it to completion
turns, call the completion client, then either save and relay the AI
reply (Python `if ai_response:`, so an empty stripped reply takes the
fallback branch) or relay the fixed apology.  The top-level `except`
block catches any exception, relays the generic internal-error message,
and does not re-raise, so `raised` is `false` on every path. -/
def process_incoming_message (db : DB) (phone : String) (name : Option String)
    (user_message : String) (env : PipelineEnv) : PipelineResult :=
  if env.failResolveUser then
    { sessionDb := db, sends := (send_zapi_message phone internal_error_text).toList,
      raised := false, poisoned := true }
  else
    let resolved := get_or_create_user db phone name
    if env.failSaveUserMsg then
      { sessionDb := resolved.2, sends := (send_zapi_message phone internal_error_text).toList,
        raised := false, poisoned := true }
    else
      let db2 := save_chat_message resolved.2 resolved.1.id user_message .USER
      if env.failGetHistory then
        { sessionDb := db2, sends := (send_zapi_message phone internal_error_text).toList,
          raised := false, poisoned := true }
      else
        let history_db := get_chat_history db2 resolved.1.id env.contextMessageCount
        let history_for_ai := history_db.map (fun msg =>
          { role := if msg.sender_type == SenderTypeEnum.AI then "assistant" else "user",
            content := msg.message : OpenRouterMessage })
        let ai_response := call_openrouter history_for_ai env.aiOutcome
        if truthyStr ai_response then
          if env.failSaveAiMsg then
            { sessionDb := db2, sends := (send_zapi_message phone internal_error_text).toList,
              raised := false, poisoned := true }
          else
            let db3 := save_chat_message db2 resolved.1.id (ai_response.getD "") .AI
            { sessionDb := db3, sends := (send_zapi_message phone (ai_response.getD "")).toList,
              raised := false, poisoned := false }
        else
          { sessionDb := db2, sends := (send_zapi_message phone fallback_apology_text).toList,
            raised := false, poisoned := false }

/-- `db.get_db`: the session context manager around one unit of work, with
`session.commit()` inside the `try`.  If the body let an exception escape,
or the body swallowed a database error that left the session transaction
rollback-only (so that `commit` itself raises), the `except` branch rolls
the session back — the durable state stays exactly as it was before the
run — and re-raises; otherwise the session's work is committed.  Returns
the durable state and whether an exception escaped `get_db`. -/
def get_db_run (dbBefore : DB) (result : PipelineResult) : DB × Bool :=
  if result.raised then (dbBefore, true)
  else if result.poisoned then (dbBefore, true)
  else (result.sessionDb, false)

/-- One background task enqueued by the webhook endpoint: the arguments
handed to `process_incoming_message`. -/
structure PipelineTask where
  phone : String
  name : Option String
  text : String
deriving DecidableEq

/-- `schemas.ZapiMessagePayload`. -/
structure ZapiMessagePayload where
  text : Option String
deriving DecidableEq

/-- `schemas.ZapiWebhookPayload` (validated webhook body). -/
structure ZapiWebhookPayload where
  phone : String
  senderName : Option String
  message : Option ZapiMessagePayload
  isGroupMessage : Option Bool
deriving DecidableEq

/-- The inbound webhook body as `main.handle_zapi_webhook` classifies it:
not JSON at all, JSON that fails Pydantic validation, or a validated
payload. -/
inductive WebhookBody
  | notJson
  | invalidShape
  | valid (payload : ZapiWebhookPayload)
deriving DecidableEq

/-- HTTP response of the webhook endpoint: status code, and the `status`
field of the JSON body for the 200 responses. -/
structure WebhookResponse where
  statusCode : Nat
  status : Option String
deriving DecidableEq

/-- `main.handle_zapi_webhook`: 400 when the body is not JSON; 200
`processing_error` when validation fails; soft-ignore group messages,
missing or empty text (Python `if not webhook_data.message or not
webhook_data.message.text`), and whitespace-only text; otherwise enqueue
one background pipeline task and acknowledge with `received`. -/
def handle_zapi_webhook (body : WebhookBody) : WebhookResponse × List PipelineTask :=
  match body with
  | .notJson => ({ statusCode := 400, status := none }, [])
  | .invalidShape => ({ statusCode := 200, status := some "processing_error" }, [])
  | .valid w =>
    if w.isGroupMessage == some true then
      ({ statusCode := 200, status := some "ignored_group_message" }, [])
    else
      match w.message with
      | none => ({ statusCode := 200, status := some "ignored_no_text" }, [])
      | some m =>
        match m.text with
        | none => ({ statusCode := 200, status := some "ignored_no_text" }, [])
        | some t =>
          if t == "" then ({ statusCode := 200, status := some "ignored_no_text" }, [])
          else
            let user_message := py_strip t
            if user_message == "" then
              ({ statusCode := 200, status := some "ignored_empty_text" }, [])
            else
              ({ statusCode := 200, status := some "received" },
               [{ phone := w.phone, name := w.senderName, text := user_message }])

/-- Run the enqueued background tasks in order, each inside its `get_db`
session. -/
def run_tasks (tasks : List PipelineTask) (env : PipelineEnv) (db : DB) : DB × List ZapiPayload :=
  match tasks with
  | [] => (db, [])
  | t :: rest =>
    let r := process_incoming_message db t.phone t.name t.text env
    let dbNext := (get_db_run db r).1
    let tail := run_tasks rest env dbNext
    (tail.1, r.sends ++ tail.2)

/-- One whole webhook request: classify and acknowledge the body, then run
the background tasks it enqueued. -/
def webhook_request (body : WebhookBody) (db : DB) (env : PipelineEnv) :
    WebhookResponse × DB × List ZapiPayload :=
  let handled := handle_zapi_webhook body
  let run := run_tasks handled.2 env db
  (handled.1, run.1, run.2)

/-! ### Lemmas about the history sort -/

theorem mem_insertTsDesc {a m : ChatHistory} {l : List ChatHistory} :
    a ∈ insertTsDesc m l ↔ a = m ∨ a ∈ l := by
  induction l with
  | nil => simp [insertTsDesc]
  | cons x xs ih =>
    simp only [insertTsDesc]
    split
    · simp [List.mem_cons]
    · simp only [List.mem_cons, ih]
      tauto

theorem mem_sortTsDesc {a : ChatHistory} {l : List ChatHistory} :
    a ∈ sortTsDesc l ↔ a ∈ l := by
  induction l with
  | nil => simp [sortTsDesc]
  | cons x xs ih => simp [sortTsDesc, mem_insertTsDesc, ih, List.mem_cons]

theorem pairwise_insertTsDesc {m : ChatHistory} {l : List ChatHistory}
    (h : l.Pairwise (fun a b => b.timestamp ≤ a.timestamp)) :
    (insertTsDesc m l).Pairwise (fun a b => b.timestamp ≤ a.timestamp) := by
  induction l with
  | nil => simp [insertTsDesc]
  | cons x xs ih =>
    rcases List.pairwise_cons.mp h with ⟨hx, hxs⟩
    simp only [insertTsDesc]
    split
    · rename_i hcond
      refine List.pairwise_cons.mpr ⟨?_, h⟩
      intro b hb
      rcases List.mem_cons.mp hb with rfl | hb2
      · exact hcond
      · exact Nat.le_trans (hx b hb2) hcond
    · rename_i hcond
      refine List.pairwise_cons.mpr ⟨?_, ih hxs⟩
      intro b hb
      rcases mem_insertTsDesc.mp hb with rfl | hb2
      · exact Nat.le_of_not_le hcond
      · exact hx b hb2

theorem pairwise_sortTsDesc (l : List ChatHistory) :
    (sortTsDesc l).Pairwise (fun a b => b.timestamp ≤ a.timestamp) := by
  induction l with
  | nil => simp [sortTsDesc]
  | cons x xs ih => exact pairwise_insertTsDesc ih

theorem sortTsDesc_eq_cons_of_max {l : List ChatHistory} {m : ChatHistory}
    (hm : m ∈ l) (hmax : ∀ x ∈ l, x = m ∨ x.timestamp < m.timestamp) :
    ∃ t, sortTsDesc l = m :: t := by
  have hmem : m ∈ sortTsDesc l := mem_sortTsDesc.mpr hm
  cases hsl : sortTsDesc l with
  | nil => rw [hsl] at hmem; cases hmem
  | cons h t =>
    have hp := pairwise_sortTsDesc l
    rw [hsl] at hp hmem
    have hh : h ∈ l := mem_sortTsDesc.mp (by rw [hsl]; exact List.mem_cons_self h t)
    rcases hmax h hh with rfl | hlt
    · exact ⟨t, rfl⟩
    · rcases List.mem_cons.mp hmem with rfl | hmt
      · exact ⟨t, rfl⟩
      · have hle := (List.pairwise_cons.mp hp).1 m hmt
        omega

/-! ### Basic facts about the store operations -/

theorem get_or_create_user_of_find_none (db : DB) (phone : String) (name : Option String)
    (h : db.users.find? (fun u => u.phone_number == phone) = none) :
    get_or_create_user db phone name =
      (⟨db.nextUserId, phone, name⟩,
       { db with users := db.users ++ [⟨db.nextUserId, phone, name⟩],
                 nextUserId := db.nextUserId + 1 }) := by
  unfold get_or_create_user
  rw [h]

theorem get_or_create_user_chat (db : DB) (phone : String) (name : Option String) :
    (get_or_create_user db phone name).2.chat = db.chat := by
  unfold get_or_create_user
  cases h : db.users.find? (fun u => u.phone_number == phone) with
  | none => rfl
  | some u =>
    dsimp only
    split <;> rfl

theorem save_chat_message_chat (db : DB) (uid : Nat) (msg : String) (s : SenderTypeEnum) :
    (save_chat_message db uid msg s).chat =
      db.chat ++ [⟨db.nextMsgId, uid, msg, s, db.nextTime⟩] := rfl

/-- C2: `get_chat_history` returns at most `limit` messages, each belonging
to the requested user, in ascending timestamp order (the N most recent by
timestamp descending, reversed to chronological order). -/
theorem c2_get_chat_history_bounded_owned_sorted (db : DB) (u : Nat) (n : Nat) :
    (get_chat_history db u n).length ≤ n ∧
    (∀ m ∈ get_chat_history db u n, m.user_id = u) ∧
    (get_chat_history db u n).Pairwise (fun a b => a.timestamp ≤ b.timestamp) := by
  refine ⟨?_, ?_, ?_⟩
  · unfold get_chat_history
    rw [List.length_reverse, List.length_take]
    exact min_le_left _ _
  · intro m hm
    unfold get_chat_history at hm
    rw [List.mem_reverse] at hm
    have h1 := List.mem_of_mem_take hm
    have h2 := mem_sortTsDesc.mp h1
    have h3 := List.mem_filter.mp h2
    simpa using h3.2
  · unfold get_chat_history
    rw [List.pairwise_reverse]
    exact List.Pairwise.sublist (List.take_sublist _ _) (pairwise_sortTsDesc _)

/-- C2 witness: evaluated on a concrete store holding messages of two
users. -/
theorem c2_get_chat_history_bounded_owned_sorted_witness :
    (get_chat_history
        ⟨[], [⟨0, 1, "a", .USER, 0⟩, ⟨1, 2, "b", .USER, 1⟩, ⟨2, 1, "c", .AI, 2⟩], 0, 3, 3⟩
        1 5).length ≤ 5 ∧
    (ChatHistory.mk 0 1 "a" .USER 0).user_id = 1 :=
  ⟨(c2_get_chat_history_bounded_owned_sorted
      ⟨[], [⟨0, 1, "a", .USER, 0⟩, ⟨1, 2, "b", .USER, 1⟩, ⟨2, 1, "c", .AI, 2⟩], 0, 3, 3⟩ 1 5).1,
   (c2_get_chat_history_bounded_owned_sorted
      ⟨[], [⟨0, 1, "a", .USER, 0⟩, ⟨1, 2, "b", .USER, 1⟩, ⟨2, 1, "c", .AI, 2⟩], 0, 3, 3⟩ 1 5).2.1
     (ChatHistory.mk 0 1 "a" .USER 0) (by decide)⟩

/-- C3: appending a message and immediately reading the last 1 message for
that user returns exactly that message's text and sender kind (assuming
the store's server clock is ahead of every stored timestamp, which every
reachable store satisfies). -/
theorem c3_save_then_read_last_roundtrip (db : DB) (u : Nat) (T : String) (S : SenderTypeEnum)
    (hts : ∀ m ∈ db.chat, m.timestamp < db.nextTime) :
    ∃ m, get_chat_history (save_chat_message db u T S) u 1 = [m] ∧
      m.message = T ∧ m.sender_type = S := by
  refine ⟨(ChatHistory.mk db.nextMsgId u T S db.nextTime), ?_, rfl, rfl⟩
  have hfl : (db.chat ++ [(ChatHistory.mk db.nextMsgId u T S db.nextTime)]).filter (fun m => m.user_id == u) =
      db.chat.filter (fun m => m.user_id == u) ++ [(ChatHistory.mk db.nextMsgId u T S db.nextTime)] := by
    rw [List.filter_append]
    simp
  have hmem : (ChatHistory.mk db.nextMsgId u T S db.nextTime) ∈
      (db.chat ++ [(ChatHistory.mk db.nextMsgId u T S db.nextTime)]).filter (fun m => m.user_id == u) := by
    rw [hfl]
    exact List.mem_append_right _ (List.mem_cons_self _ _)
  have hmax : ∀ x ∈ (db.chat ++ [(ChatHistory.mk db.nextMsgId u T S db.nextTime)]).filter (fun m => m.user_id == u),
      x = (ChatHistory.mk db.nextMsgId u T S db.nextTime) ∨
      x.timestamp < (ChatHistory.mk db.nextMsgId u T S db.nextTime).timestamp := by
    intro x hx
    rw [hfl] at hx
    rcases List.mem_append.mp hx with hx1 | hx2
    · right
      exact hts x (List.mem_of_mem_filter hx1)
    · left
      simpa using hx2
  obtain ⟨t, ht⟩ := sortTsDesc_eq_cons_of_max hmem hmax
  show ((sortTsDesc ((db.chat ++ [(ChatHistory.mk db.nextMsgId u T S db.nextTime)]).filter
      (fun m => m.user_id == u))).take 1).reverse = _
  rw [ht]
  rfl

/-- C3 witness: round-trip on a concrete store that already holds an
older message of the same user. -/
theorem c3_save_then_read_last_roundtrip_witness :
    (∀ m ∈ (DB.mk [⟨0, "5511", none⟩] [⟨0, 7, "old", .USER, 0⟩] 1 1 1).chat,
        m.timestamp < (DB.mk [⟨0, "5511", none⟩] [⟨0, 7, "old", .USER, 0⟩] 1 1 1).nextTime) ∧
    ∃ m, get_chat_history
        (save_chat_message (DB.mk [⟨0, "5511", none⟩] [⟨0, 7, "old", .USER, 0⟩] 1 1 1) 7 "oi" .USER)
        7 1 = [m] ∧ m.message = "oi" ∧ m.sender_type = .USER :=
  ⟨by decide,
   c3_save_then_read_last_roundtrip
     (DB.mk [⟨0, "5511", none⟩] [⟨0, 7, "old", .USER, 0⟩] 1 1 1) 7 "oi" .USER (by decide)⟩

theorem get_or_create_user_of_find_some (db : DB) (phone : String) (name : Option String) (w : User)
    (h : db.users.find? (fun u => u.phone_number == phone) = some w) :
    get_or_create_user db phone name =
      (if truthyStr name && (!truthyStr w.name || w.name != name) then
        (⟨w.id, w.phone_number, name⟩,
         { db with users := db.users.map (fun u => if u.id == w.id then ⟨w.id, w.phone_number, name⟩ else u) })
      else (w, db)) := by
  unfold get_or_create_user
  rw [h]

theorem map_update_eq_self (l : List User) (nid : Nat) (upd : User)
    (h : ∀ u ∈ l, u.id ≠ nid) :
    l.map (fun u => if u.id == nid then upd else u) = l := by
  induction l with
  | nil => rfl
  | cons x xs ih =>
    have hx : ¬((x.id == nid) = true) := by
      simp only [beq_iff_eq]
      exact h x (List.mem_cons_self x xs)
    rw [List.map_cons, if_neg hx, ih (fun u hu => h u (List.mem_cons_of_mem x hu))]

/-- C1: for a phone number with no existing user, `get_or_create_user`
creates exactly one user row carrying that phone; a second call with the
same phone returns a user with the same id, creates no additional row,
and keeps exactly one row with that phone. -/
theorem c1_get_or_create_user_no_duplicate (db : DB) (P : String) (n1 n2 : Option String)
    (hids : ∀ u ∈ db.users, u.id < db.nextUserId)
    (hfresh : ∀ u ∈ db.users, u.phone_number ≠ P) :
    (get_or_create_user db P n1).1.phone_number = P ∧
    ((get_or_create_user db P n1).2.users.filter (fun u => u.phone_number == P)).length = 1 ∧
    (get_or_create_user (get_or_create_user db P n1).2 P n2).1.id = (get_or_create_user db P n1).1.id ∧
    (get_or_create_user (get_or_create_user db P n1).2 P n2).2.users.length =
      (get_or_create_user db P n1).2.users.length ∧
    ((get_or_create_user (get_or_create_user db P n1).2 P n2).2.users.filter
      (fun u => u.phone_number == P)).length = 1 := by
  have hnone : db.users.find? (fun u => u.phone_number == P) = none := by
    rw [List.find?_eq_none]
    intro u hu
    simpa using hfresh u hu
  have hfilter0 : db.users.filter (fun u => u.phone_number == P) = [] := by
    rw [List.filter_eq_nil_iff]
    intro u hu
    simpa using hfresh u hu
  have h1 := get_or_create_user_of_find_none db P n1 hnone
  have hfind2 : (db.users ++ [User.mk db.nextUserId P n1]).find?
      (fun u => u.phone_number == P) = some (User.mk db.nextUserId P n1) := by
    rw [List.find?_append, hnone]
    simp [List.find?]
  have h2 := get_or_create_user_of_find_some
    { db with users := db.users ++ [User.mk db.nextUserId P n1], nextUserId := db.nextUserId + 1 }
    P n2 (User.mk db.nextUserId P n1) hfind2
  rw [h1]
  dsimp only
  rw [h2]
  dsimp only
  have hfilter1 : (db.users ++ [User.mk db.nextUserId P n1]).filter
      (fun u => u.phone_number == P) = [User.mk db.nextUserId P n1] := by
    rw [List.filter_append, hfilter0]
    simp
  split
  · refine ⟨rfl, ?_, rfl, ?_, ?_⟩
    · rw [hfilter1]
      rfl
    · simp
    · have hmap : (db.users ++ [User.mk db.nextUserId P n1]).map
          (fun u => if u.id == db.nextUserId then User.mk db.nextUserId P n2 else u) =
          db.users ++ [User.mk db.nextUserId P n2] := by
        rw [List.map_append]
        rw [map_update_eq_self db.users db.nextUserId (User.mk db.nextUserId P n2)
          (fun u hu => Nat.ne_of_lt (hids u hu))]
        simp
      rw [hmap, List.filter_append, hfilter0]
      simp
  · exact ⟨rfl, by rw [hfilter1]; rfl, rfl, rfl, by rw [hfilter1]; rfl⟩

/-- C1 witness: a fresh phone on the empty store, then a repeat call with
an updated display name. -/
theorem c1_get_or_create_user_no_duplicate_witness :
    (get_or_create_user ⟨[], [], 0, 0, 0⟩ "5511987654321" (some "Maria")).1.phone_number =
      "5511987654321" ∧
    ((get_or_create_user ⟨[], [], 0, 0, 0⟩ "5511987654321" (some "Maria")).2.users.filter
      (fun u => u.phone_number == "5511987654321")).length = 1 ∧
    (get_or_create_user (get_or_create_user ⟨[], [], 0, 0, 0⟩ "5511987654321" (some "Maria")).2
        "5511987654321" (some "Maria Silva")).1.id =
      (get_or_create_user ⟨[], [], 0, 0, 0⟩ "5511987654321" (some "Maria")).1.id ∧
    (get_or_create_user (get_or_create_user ⟨[], [], 0, 0, 0⟩ "5511987654321" (some "Maria")).2
        "5511987654321" (some "Maria Silva")).2.users.length =
      (get_or_create_user ⟨[], [], 0, 0, 0⟩ "5511987654321" (some "Maria")).2.users.length ∧
    ((get_or_create_user (get_or_create_user ⟨[], [], 0, 0, 0⟩ "5511987654321" (some "Maria")).2
        "5511987654321" (some "Maria Silva")).2.users.filter
      (fun u => u.phone_number == "5511987654321")).length = 1 :=
  c1_get_or_create_user_no_duplicate ⟨[], [], 0, 0, 0⟩ "5511987654321"
    (some "Maria") (some "Maria Silva") (by decide) (by decide)

/-- The digits-only projection of a phone string, following the spec text
"normalizes the phone number by stripping all non-digit characters". -/
def digits_only (phone : String) : String :=
  String.mk (phone.data.filter Char.isDigit)

/-- C4: `send_zapi_message` normalizes the phone by keeping only digits and
prepending "55" exactly when the digit string has at most 11 digits and
does not already start with "55"; the three spec examples evaluate as
stated, and a nonempty message is relayed with the normalized phone. -/
theorem c4_phone_normalization (p : String) (m : String) :
    (clean_phone p =
      if (digits_only p).length ≤ 11 ∧ py_startswith (digits_only p) "55" = false then
        "55" ++ digits_only p
      else digits_only p) ∧
    (¬(m = "") → send_zapi_message p m = some (ZapiPayload.mk (clean_phone p) m)) ∧
    clean_phone "11987654321" = "5511987654321" ∧
    clean_phone "5511987654321" = "5511987654321" ∧
    clean_phone "(11) 98765-4321" = "5511987654321" := by
  refine ⟨?_, ?_, by decide, by decide, by decide⟩
  · have hcp : clean_phone p =
        (if (digits_only p).length ≤ 11 && !(py_startswith (digits_only p) "55") then
          "55" ++ digits_only p else digits_only p) := rfl
    cases hb : py_startswith (digits_only p) "55" <;>
      by_cases h1 : (digits_only p).length ≤ 11 <;>
      simp [hcp, hb, h1]
  · intro hm
    have : (m == "") = false := by simpa using hm
    simp [send_zapi_message, this]

/-- C4 witness: the punctuation example relayed with a nonempty message. -/
theorem c4_phone_normalization_witness :
    send_zapi_message "(11) 98765-4321" "oi" =
      some (ZapiPayload.mk (clean_phone "(11) 98765-4321") "oi") :=
  (c4_phone_normalization "(11) 98765-4321" "oi").2.1 (by decide)

/-- C5: the completion client returns `None` whenever the HTTP call failed
or the parsed response has an empty `choices` list, and returns a reply
only when there is at least one choice (in which case the reply is the
stripped content of the first choice); it never raises, being a total
function of the outcome. -/
theorem c5_call_openrouter_absent_on_failure (h : List OpenRouterMessage)
    (o : CompletionHttpOutcome) :
    (((∃ st, o = .httpStatusError st) ∨ o = .otherError ∨
        (∃ r, o = .success r ∧ r.choices = [])) → call_openrouter h o = none) ∧
    (∀ s, call_openrouter h o = some s →
      ∃ r c rest, o = .success r ∧ r.choices = c :: rest ∧ s = py_strip c.message.content) := by
  constructor
  · rintro (⟨st, rfl⟩ | rfl | ⟨r, rfl, hr⟩) <;>
      simp [call_openrouter, openrouter_extract]
    rw [hr]
  · intro s hs
    cases o with
    | success r =>
      cases hc : r.choices with
      | nil => simp [call_openrouter, openrouter_extract, hc] at hs
      | cons c rest =>
        refine ⟨r, c, rest, rfl, hc, ?_⟩
        simp [call_openrouter, openrouter_extract, hc] at hs
        exact hs.symm
    | httpStatusError st => simp [call_openrouter, openrouter_extract] at hs
    | otherError => simp [call_openrouter, openrouter_extract] at hs

/-- C5 witness: a concrete failed call yields `None`. -/
theorem c5_call_openrouter_absent_on_failure_witness :
    call_openrouter [] CompletionHttpOutcome.otherError = none :=
  (c5_call_openrouter_absent_on_failure [] CompletionHttpOutcome.otherError).1
    (Or.inr (Or.inl rfl))

/-! ### The pipeline on the no-reply path -/

theorem process_no_reply (db : DB) (phone : String) (name : Option String)
    (user_message : String) (env : PipelineEnv)
    (h1 : env.failResolveUser = false) (h2 : env.failSaveUserMsg = false)
    (h3 : env.failGetHistory = false)
    (hai : truthyStr (openrouter_extract env.aiOutcome) = false) :
    process_incoming_message db phone name user_message env =
      { sessionDb := save_chat_message (get_or_create_user db phone name).2
          (get_or_create_user db phone name).1.id user_message .USER,
        sends := [ZapiPayload.mk (clean_phone phone) fallback_apology_text],
        raised := false, poisoned := false } := by
  have hsend : send_zapi_message phone fallback_apology_text =
      some (ZapiPayload.mk (clean_phone phone) fallback_apology_text) := by
    unfold send_zapi_message
    rw [if_neg (by decide)]
  unfold process_incoming_message
  simp only [h1, h2, h3, Bool.false_eq_true, if_false, call_openrouter, hai, hsend]
  rfl

theorem process_fallback_conclusions (db : DB) (phone : String) (name : Option String)
    (user_message : String) (env : PipelineEnv)
    (h1 : env.failResolveUser = false) (h2 : env.failSaveUserMsg = false)
    (h3 : env.failGetHistory = false)
    (hai : truthyStr (openrouter_extract env.aiOutcome) = false) :
    (process_incoming_message db phone name user_message env).sends =
      [ZapiPayload.mk (clean_phone phone) fallback_apology_text] ∧
    (∃ m, (process_incoming_message db phone name user_message env).sessionDb.chat =
        db.chat ++ [m] ∧ m.sender_type = .USER ∧ m.message = user_message) ∧
    (process_incoming_message db phone name user_message env).sessionDb.chat.filter
        (fun m => m.sender_type == SenderTypeEnum.AI) =
      db.chat.filter (fun m => m.sender_type == SenderTypeEnum.AI) := by
  rw [process_no_reply db phone name user_message env h1 h2 h3 hai]
  dsimp only
  refine ⟨rfl, ?_, ?_⟩
  · refine ⟨ChatHistory.mk (get_or_create_user db phone name).2.nextMsgId
      (get_or_create_user db phone name).1.id user_message .USER
      (get_or_create_user db phone name).2.nextTime, ?_, rfl, rfl⟩
    rw [save_chat_message_chat, get_or_create_user_chat]
  · rw [save_chat_message_chat, get_or_create_user_chat, List.filter_append]
    have hus : (SenderTypeEnum.USER == SenderTypeEnum.AI) = false := rfl
    simp [hus]

/-- C6: when the completion call produces no reply, the pipeline relays the
fixed fallback apology to the user's (normalized) phone, appends only the
inbound USER message, adds no AI-sender entry, and stores nothing for the
fallback message itself. -/
theorem c6_fallback_relayed_no_ai_entry (db : DB) (phone : String) (name : Option String)
    (user_message : String) (env : PipelineEnv)
    (h1 : env.failResolveUser = false) (h2 : env.failSaveUserMsg = false)
    (h3 : env.failGetHistory = false)
    (hai : truthyStr (openrouter_extract env.aiOutcome) = false) :
    (process_incoming_message db phone name user_message env).sends =
      [ZapiPayload.mk (clean_phone phone) fallback_apology_text] ∧
    (∃ m, (process_incoming_message db phone name user_message env).sessionDb.chat =
        db.chat ++ [m] ∧ m.sender_type = .USER ∧ m.message = user_message) ∧
    (process_incoming_message db phone name user_message env).sessionDb.chat.filter
        (fun m => m.sender_type == SenderTypeEnum.AI) =
      db.chat.filter (fun m => m.sender_type == SenderTypeEnum.AI) :=
  process_fallback_conclusions db phone name user_message env h1 h2 h3 hai

/-- C6 witness: a completion response with an empty `choices` list. -/
theorem c6_fallback_relayed_no_ai_entry_witness :
    (process_incoming_message ⟨[], [], 0, 0, 0⟩ "11987654321" none "oi"
        ⟨.success ⟨[]⟩, 6, false, false, false, false⟩).sends =
      [ZapiPayload.mk (clean_phone "11987654321") fallback_apology_text] :=
  (c6_fallback_relayed_no_ai_entry ⟨[], [], 0, 0, 0⟩ "11987654321" none "oi"
    ⟨.success ⟨[]⟩, 6, false, false, false, false⟩ rfl rfl rfl (by decide)).1

/-- C10: a reply whose content is empty or whitespace-only strips to the
empty string, which Python truthiness treats as no reply: the pipeline
takes the fallback branch, relays the apology, and appends no AI-sender
entry. -/
theorem c10_whitespace_reply_is_no_reply (db : DB) (phone : String) (name : Option String)
    (user_message : String) (env : PipelineEnv) (resp : OpenRouterResponse)
    (c : OpenRouterChoice) (rest : List OpenRouterChoice)
    (h1 : env.failResolveUser = false) (h2 : env.failSaveUserMsg = false)
    (h3 : env.failGetHistory = false)
    (ho : env.aiOutcome = .success resp) (hc : resp.choices = c :: rest)
    (hw : py_strip c.message.content = "") :
    (process_incoming_message db phone name user_message env).sends =
      [ZapiPayload.mk (clean_phone phone) fallback_apology_text] ∧
    (∃ m, (process_incoming_message db phone name user_message env).sessionDb.chat =
        db.chat ++ [m] ∧ m.sender_type = .USER ∧ m.message = user_message) ∧
    (process_incoming_message db phone name user_message env).sessionDb.chat.filter
        (fun m => m.sender_type == SenderTypeEnum.AI) =
      db.chat.filter (fun m => m.sender_type == SenderTypeEnum.AI) := by
  have hai : truthyStr (openrouter_extract env.aiOutcome) = false := by
    rw [ho]
    simp [openrouter_extract, hc, hw, truthyStr]
  exact process_fallback_conclusions db phone name user_message env h1 h2 h3 hai

/-- C10 witness: a single choice whose content is one space. -/
theorem c10_whitespace_reply_is_no_reply_witness :
    (process_incoming_message ⟨[], [], 0, 0, 0⟩ "11987654321" none "oi"
        ⟨.success ⟨[⟨⟨"assistant", " "⟩⟩]⟩, 6, false, false, false, false⟩).sends =
      [ZapiPayload.mk (clean_phone "11987654321") fallback_apology_text] :=
  (c10_whitespace_reply_is_no_reply ⟨[], [], 0, 0, 0⟩ "11987654321" none "oi"
    ⟨.success ⟨[⟨⟨"assistant", " "⟩⟩]⟩, 6, false, false, false, false⟩
    ⟨[⟨⟨"assistant", " "⟩⟩]⟩ ⟨⟨"assistant", " "⟩⟩ []
    rfl rfl rfl rfl rfl (by decide)).1

theorem process_incoming_message_raised (db : DB) (phone : String) (name : Option String)
    (user_message : String) (env : PipelineEnv) :
    (process_incoming_message db phone name user_message env).raised = false := by
  unfold process_incoming_message
  repeat' (first | split | dsimp only)

/-- C7: for every pipeline run in which a database step raised, the
pipeline's own top-level guard catches the exception — nothing escapes the
pipeline body — and the session's work is rolled back entirely: the
rollback-only session makes `get_db`'s commit raise, its `except` branch
restores the durable state to exactly the pre-run state (no partial write,
such as a created User or an appended inbound message, survives) and
re-raises only inside that per-run session guard. -/
theorem c7_poisoned_session_rolls_back_entirely (db : DB) (phone : String)
    (name : Option String) (user_message : String) (env : PipelineEnv)
    (hp : (process_incoming_message db phone name user_message env).poisoned = true) :
    (process_incoming_message db phone name user_message env).raised = false ∧
    get_db_run db (process_incoming_message db phone name user_message env) = (db, true) := by
  refine ⟨process_incoming_message_raised db phone name user_message env, ?_⟩
  simp [get_db_run, process_incoming_message_raised db phone name user_message env, hp]

/-- C7 witness: the save of the inbound message raises after the user row
was created and flushed; the committed durable state is the pre-run state —
the created User does not survive. -/
theorem c7_poisoned_session_rolls_back_entirely_witness :
    (process_incoming_message ⟨[], [], 0, 0, 0⟩ "5511999990000" none "ola"
        ⟨.otherError, 6, false, true, false, false⟩).raised = false ∧
    get_db_run ⟨[], [], 0, 0, 0⟩
        (process_incoming_message ⟨[], [], 0, 0, 0⟩ "5511999990000" none "ola"
          ⟨.otherError, 6, false, true, false, false⟩) =
      (⟨[], [], 0, 0, 0⟩, true) :=
  c7_poisoned_session_rolls_back_entirely ⟨[], [], 0, 0, 0⟩ "5511999990000" none "ola"
    ⟨.otherError, 6, false, true, false, false⟩ (by decide)

/-- The spec's normal form for a stored identity key: "phone number
(string, normalized to digits, country-code-prefixed)" — digits-only and
carrying the "55" country prefix, the form `clean_phone` produces. -/
def spec_normalized_phone (s : String) : Bool :=
  s.data.all Char.isDigit && py_startswith s "55"

/-- C8 counterexample: a pipeline run whose webhook phone carries
punctuation persists that raw string as the User's phone_number, which is
not in the normalized form the relay client computes. -/
theorem c8_counterexample_stored_phone_not_normalized :
    (process_incoming_message ⟨[], [], 0, 0, 0⟩ "(11) 98765-4321" none "ola"
        ⟨.otherError, 6, false, false, false, false⟩).sessionDb.users.map
        (fun u => u.phone_number) = ["(11) 98765-4321"] ∧
    spec_normalized_phone "(11) 98765-4321" = false ∧
    clean_phone "(11) 98765-4321" = "5511987654321" := by decide

/-- C8 amended: the store keeps the webhook phone string verbatim — the
resolved or created user carries exactly the inbound phone string, and
every stored phone number is either the inbound string or one already
stored; normalization happens only in the relay client. -/
theorem c8_amended_stored_phone_verbatim (db : DB) (phone : String) (name : Option String) :
    (get_or_create_user db phone name).1.phone_number = phone ∧
    ∀ u ∈ (get_or_create_user db phone name).2.users,
      u.phone_number = phone ∨ u.phone_number ∈ db.users.map (fun v => v.phone_number) := by
  cases hf : db.users.find? (fun u => u.phone_number == phone) with
  | none =>
    rw [get_or_create_user_of_find_none db phone name hf]
    refine ⟨rfl, ?_⟩
    intro u hu
    rcases List.mem_append.mp hu with h | h
    · exact Or.inr (List.mem_map_of_mem _ h)
    · left
      have hx : u = User.mk db.nextUserId phone name := by simpa using h
      rw [hx]
  | some w =>
    have hw : w.phone_number = phone := by simpa using List.find?_some hf
    rw [get_or_create_user_of_find_some db phone name w hf]
    by_cases hc : (truthyStr name && (!truthyStr w.name || w.name != name)) = true
    · rw [if_pos hc]
      refine ⟨hw, ?_⟩
      intro u hu
      obtain ⟨v, hv, hfv⟩ := List.mem_map.mp hu
      rw [← hfv]
      by_cases hid : (v.id == w.id) = true
      · rw [if_pos hid]
        exact Or.inl hw
      · rw [if_neg hid]
        exact Or.inr (List.mem_map_of_mem _ hv)
    · rw [if_neg hc]
      refine ⟨hw, ?_⟩
      intro u hu
      exact Or.inr (List.mem_map_of_mem _ hu)

/-- C8 amended witness: the punctuated phone string is stored verbatim. -/
theorem c8_amended_stored_phone_verbatim_witness :
    (get_or_create_user ⟨[], [], 0, 0, 0⟩ "(11) 98765-4321" none).1.phone_number =
      "(11) 98765-4321" ∧
    ((User.mk 0 "(11) 98765-4321" none).phone_number = "(11) 98765-4321" ∨
      (User.mk 0 "(11) 98765-4321" none).phone_number ∈
        (DB.mk [] [] 0 0 0).users.map (fun v => v.phone_number)) :=
  ⟨(c8_amended_stored_phone_verbatim ⟨[], [], 0, 0, 0⟩ "(11) 98765-4321" none).1,
   (c8_amended_stored_phone_verbatim ⟨[], [], 0, 0, 0⟩ "(11) 98765-4321" none).2
     (User.mk 0 "(11) 98765-4321" none) (by decide)⟩

/-- C9: a validated webhook payload flagged as a group message is answered
with 200 `ignored_group_message`, no background task runs, and the store
is unchanged — no User and no ChatMessage row is created. -/
theorem c9_group_message_ignored (w : ZapiWebhookPayload) (db : DB) (env : PipelineEnv)
    (hg : w.isGroupMessage = some true) :
    webhook_request (.valid w) db env =
      (⟨200, some "ignored_group_message"⟩, db, []) := by
  simp [webhook_request, handle_zapi_webhook, run_tasks, hg]

/-- C9 witness: a concrete group-message payload on the empty store. -/
theorem c9_group_message_ignored_witness :
    webhook_request (.valid ⟨"5511987654321", none, none, some true⟩)
        ⟨[], [], 0, 0, 0⟩ ⟨.otherError, 6, false, false, false, false⟩ =
      (⟨200, some "ignored_group_message"⟩, ⟨[], [], 0, 0, 0⟩, []) :=
  c9_group_message_ignored ⟨"5511987654321", none, none, some true⟩
    ⟨[], [], 0, 0, 0⟩ ⟨.otherError, 6, false, false, false, false⟩ rfl

end IaMedica
